import Mathlib

/-!
# Dark Phoenix — verification of the orchestration core

A shallow embedding of the Dark Phoenix repository (crates
`dark-phoenix-core`, `threat-detection`, `deterrence-suite`,
`fire-suppression`) together with theorems settling the specification
claims about the threat state machine, risk scoring, deterrence
activation and the fire-suppression controller.

Modelling conventions:
* Rust `f32`/`f64` values are embedded as `ℚ` (exact arithmetic; the
  spec states all formulas over ideal reals).
* Timestamps (`DateTime<Utc>`) are `Nat` seconds; `Uuid` is `Nat`.
  Functions that call `Utc::now()` / `Uuid::new_v4()` take the current
  time and the fresh id as explicit parameters.
* `&mut self` methods become state-passing functions; a Rust method
  returning `Result<(), E>` becomes a function returning the updated
  state paired with `Except E Unit`.
* `HashMap` fields are association lists (no claim touches them).
-/

namespace DarkPhoenixCore

/-- `ThreatLevel` from `dark-phoenix-core/src/lib.rs`: ordered enumeration
Green=0 .. Omega=4 (Rust derives `Ord` on the discriminant). -/
inductive ThreatLevel where
  | Green
  | Yellow
  | Orange
  | Red
  | Omega
deriving DecidableEq

/-- The Rust discriminant (`as u8`), which `PartialOrd`/`Ord` compare by. -/
def ThreatLevel.toNat : ThreatLevel → Nat
  | .Green => 0
  | .Yellow => 1
  | .Orange => 2
  | .Red => 3
  | .Omega => 4

/-- `ThreatLevel::as_str`. -/
def ThreatLevel.as_str : ThreatLevel → String
  | .Green => "GREEN"
  | .Yellow => "YELLOW"
  | .Orange => "ORANGE"
  | .Red => "RED"
  | .Omega => "OMEGA"

/-- `ThreatLevel::description` — the canonical description strings. -/
def ThreatLevel.description : ThreatLevel → String
  | .Green => "All systems nominal. Guardian mode active."
  | .Yellow => "Anomaly detected. Heightened awareness engaged."
  | .Orange => "Moderate threat identified. Defensive protocols online."
  | .Red => "High threat confirmed. All deterrence systems activated."
  | .Omega => "Critical threat. Dark Phoenix rising. Maximum protection authorized."

/-- Maximum of two threat levels in the discriminant order. -/
def ThreatLevel.maxl (a b : ThreatLevel) : ThreatLevel :=
  if a.toNat < b.toNat then b else a

/-- `Position` (lat/lon/alt are `f64`, embedded as `ℚ`). -/
structure Position where
  latitude : ℚ
  longitude : ℚ
  altitude : ℚ
  timestamp : Nat
deriving DecidableEq

/-- `VitalSigns`. -/
structure VitalSigns where
  heart_rate : Option Nat
  blood_oxygen : Option Nat
  temperature : Option ℚ
  stress_level : Option Nat
  timestamp : Nat
deriving DecidableEq

/-- `SystemHealth` of the core crate. -/
structure SystemHealth where
  battery_level : Nat
  flight_time_remaining : Nat
  shield_integrity : Nat
  fire_suppression_ready : Bool
  medical_supplies : Nat
  communication_status : Bool
  gps_lock : Bool
  timestamp : Nat
deriving DecidableEq

/-- `EventType` of mission events. -/
inductive EventType where
  | ThreatDetected
  | TerrenceActivated
  | PoliceContacted
  | ShieldDeployed
  | FireSuppressed
  | MedicalAidDeployed
  | HackingAttempt
  | SystemMalfunction
  | MissionComplete
  | PhoenixRising
deriving DecidableEq

/-- `MissionEvent`. -/
structure MissionEvent where
  id : Nat
  timestamp : Nat
  event_type : EventType
  description : String
  threat_level : ThreatLevel
  position : Position
  response_actions : List String
deriving DecidableEq

/-- `DroneState` — the central command state. -/
structure DroneState where
  id : Nat
  name : String
  threat_level : ThreatLevel
  position : Position
  target_vitals : Option VitalSigns
  system_health : SystemHealth
  active_modules : List (String × Bool)
  mission_log : List MissionEvent
  last_update : Nat
deriving DecidableEq

/-- `DroneState::log_event`: build a `MissionEvent` snapshotting the
current threat level and position, push it onto the mission log and
refresh `last_update`. -/
def DroneState.log_event (uuid now : Nat) (event_type : EventType)
    (description : String) (response_actions : List String)
    (s : DroneState) : DroneState :=
  let event : MissionEvent :=
    { id := uuid
      timestamp := now
      event_type := event_type
      description := description
      threat_level := s.threat_level
      position := s.position
      response_actions := response_actions }
  { s with mission_log := s.mission_log ++ [event], last_update := now }

/-- `DroneState::escalate_threat`: only acts when `new_level` is strictly
above the current level; then sets the level and logs a `ThreatDetected`
event. -/
def DroneState.escalate_threat (uuid now : Nat) (new_level : ThreatLevel)
    (reason : String) (s : DroneState) : DroneState :=
  if s.threat_level.toNat < new_level.toNat then
    let s := { s with threat_level := new_level }
    s.log_event uuid now .ThreatDetected
      ("Threat level escalated to " ++ new_level.as_str ++ ": " ++ reason)
      ["Threat assessment: " ++ new_level.description]
  else s

/-- `DroneState::is_critical`. -/
def DroneState.is_critical (s : DroneState) : Bool :=
  decide (ThreatLevel.Red.toNat ≤ s.threat_level.toNat) ||
  decide (s.system_health.battery_level < 20) ||
  !s.system_health.communication_status ||
  decide (s.system_health.shield_integrity < 50)

/-- One `escalate_threat` call of a sequence: the fresh uuid, the call
time, the level passed in and the reason. -/
structure EscCall where
  uuid : Nat
  now : Nat
  level : ThreatLevel
  reason : String
deriving DecidableEq

/-- Run a sequence of `escalate_threat` calls left to right. -/
def DroneState.escalate_seq (s : DroneState) (calls : List EscCall) : DroneState :=
  calls.foldl (fun st c => st.escalate_threat c.uuid c.now c.level c.reason) s

end DarkPhoenixCore

namespace ThreatDetection

open DarkPhoenixCore (ThreatLevel Position)

/-- `ThreatType` from `threat-detection/src/lib.rs`. -/
inductive ThreatType where
  | PhysicalAggression
  | WeaponDetected
  | ErraticBehavior
  | HostileIntent
  | GroupThreat
  | EnvironmentalHazard
  | VehicleThreat
  | CyberThreat
  | UnknownAnomaly
deriving DecidableEq

/-- `ThreatType::severity_multiplier` — the fixed per-type multipliers. -/
def ThreatType.severity_multiplier : ThreatType → ℚ
  | .PhysicalAggression => 1.5
  | .WeaponDetected => 2.0
  | .ErraticBehavior => 1.2
  | .HostileIntent => 1.3
  | .GroupThreat => 1.8
  | .EnvironmentalHazard => 1.6
  | .VehicleThreat => 1.7
  | .CyberThreat => 1.4
  | .UnknownAnomaly => 1.1

/-- `ObjectDetection`. -/
structure ObjectDetection where
  object_type : String
  confidence : ℚ
  bounding_box : ℚ × ℚ × ℚ × ℚ
  threat_relevance : ℚ
deriving DecidableEq

/-- `VisualEvidence`. -/
structure VisualEvidence where
  object_detections : List ObjectDetection
  body_language_score : ℚ
  weapon_confidence : ℚ
  crowd_density : Nat
  lighting_conditions : String
deriving DecidableEq

/-- `AudioEvidence`. -/
structure AudioEvidence where
  volume_level : ℚ
  aggression_score : ℚ
  keyword_matches : List String
  voice_stress_level : ℚ
  gunshot_detected : Bool
  scream_detected : Bool
deriving DecidableEq

/-- `MovementEvidence`. -/
structure MovementEvidence where
  velocity_anomaly : ℚ
  direction_changes : Nat
  proximity_violations : Nat
  pursuit_behavior : Bool
  escape_attempts : Bool
deriving DecidableEq

/-- `BiometricEvidence`. -/
structure BiometricEvidence where
  elevated_heart_rate : Bool
  stress_hormones : Option ℚ
  body_temperature : Option ℚ
  breathing_pattern : Option String
deriving DecidableEq

/-- `EnvironmentalEvidence`. -/
structure EnvironmentalEvidence where
  temperature_anomaly : Option ℚ
  smoke_detected : Bool
  chemical_traces : List String
  structural_damage : Bool
  weather_conditions : String
deriving DecidableEq

/-- `ThreatEvidence`. -/
structure ThreatEvidence where
  visual_data : Option VisualEvidence
  audio_data : Option AudioEvidence
  movement_data : Option MovementEvidence
  biometric_data : Option BiometricEvidence
  environmental_data : Option EnvironmentalEvidence
deriving DecidableEq

/-- `ThreatAssessment`. -/
structure ThreatAssessment where
  id : Nat
  timestamp : Nat
  threat_level : ThreatLevel
  confidence : ℚ
  threat_types : List ThreatType
  position : Option Position
  description : String
  recommended_actions : List String
  evidence : ThreatEvidence
deriving DecidableEq

/-- `ThreatDetectionConfig`. -/
structure ThreatDetectionConfig where
  sensitivity_level : ℚ
  false_positive_tolerance : ℚ
  update_frequency_hz : Nat
  enabled_threat_types : List ThreatType
  confidence_threshold : ℚ
deriving DecidableEq

/-- `SensorInput` (raw bytes as `List Nat`). -/
structure SensorInput where
  sensor_type : String
  data : List Nat
  timestamp : Nat
  quality : ℚ
deriving DecidableEq

/-- `UltraSeekerEngine` (sensor map as an association list). -/
structure UltraSeekerEngine where
  config : ThreatDetectionConfig
  threat_history : List ThreatAssessment
  sensor_inputs : List (String × SensorInput)
deriving DecidableEq

/-- `UltraSeekerEngine::calculate_risk_score`: 0 if the history is empty;
otherwise the mean over the most recent 10 assessments (`iter().rev().take(10)`)
of `base * confidence * (1 + type_sum / 10)`. -/
def UltraSeekerEngine.calculate_risk_score (e : UltraSeekerEngine) : ℚ :=
  if e.threat_history.isEmpty then 0
  else
    let recent_assessments := e.threat_history.reverse.take 10
    let total_score :=
      (recent_assessments.map (fun a =>
        (a.threat_level.toNat : ℚ) * a.confidence *
          (1 + (a.threat_types.map ThreatType.severity_multiplier).sum / 10))).sum
    total_score / (recent_assessments.length : ℚ)

/-- One assessment's contribution, following the spec's words: `base =
ordinal(level)`, `type_sum = Σ severity_multiplier(threat_type)`,
`contribution = base * confidence * (1 + type_sum/10)`. -/
def spec_contribution (a : ThreatAssessment) : ℚ :=
  (a.threat_level.toNat : ℚ) * a.confidence *
    (1 + (a.threat_types.map ThreatType.severity_multiplier).sum / 10)

/-- The aggregate score following the spec's words: the arithmetic mean of
the contributions over the most recent 10 assessments (fewer if the
history is shorter, 0 for an empty history). -/
def spec_risk_score (history : List ThreatAssessment) : ℚ :=
  let recent := history.reverse.take 10
  if recent.length = 0 then 0
  else (recent.map spec_contribution).sum / (recent.length : ℚ)

end ThreatDetection

namespace Deterrence

open DarkPhoenixCore (ThreatLevel)

/-- `DeterrenceConfig` from `deterrence-suite/src/lib.rs`. -/
structure DeterrenceConfig where
  max_siren_volume : Nat
  strobe_frequency_hz : ℚ
  voice_volume : Nat
  escalation_delay_ms : Nat
  auto_de_escalate : Bool
deriving DecidableEq

/-- `StrobePattern`. -/
inductive StrobePattern where
  | Off
  | Pulse
  | Alert
  | Warning
  | Emergency
  | Phoenix
deriving DecidableEq

/-- `StrobePattern::frequency_hz`. -/
def StrobePattern.frequency_hz : StrobePattern → ℚ
  | .Off => 0.0
  | .Pulse => 1.0
  | .Alert => 4.0
  | .Warning => 8.0
  | .Emergency => 15.0
  | .Phoenix => 3.0

/-- `StrobePattern::description`. -/
def StrobePattern.description : StrobePattern → String
  | .Off => "Strobes disabled"
  | .Pulse => "Gentle awareness pulse"
  | .Alert => "Alert attention strobe"
  | .Warning => "Warning deterrence flash"
  | .Emergency => "Emergency disorientation strobe"
  | .Phoenix => "Phoenix rising ceremonial pattern"

/-- `DeterrenceState`. -/
structure DeterrenceState where
  siren_active : Bool
  siren_volume : Nat
  strobe_active : Bool
  strobe_pattern : StrobePattern
  voice_active : Bool
  current_message : Option String
  last_activation : Option Nat
  activation_count : Nat
deriving DecidableEq

/-- `MythicVoice::yellow_messages`. -/
def yellow_messages (situation : String) : String :=
  if situation = "anomaly" then "Anomaly detected. Please maintain calm behavior."
  else if situation = "proximity" then "You are entering a protected zone. Please identify yourself."
  else "Dark Phoenix monitoring. Please proceed with caution."

/-- `MythicVoice::orange_messages`. -/
def orange_messages (situation : String) : String :=
  if situation = "aggression" then "Aggressive behavior detected. Cease immediately or authorities will be contacted."
  else if situation = "weapon" then "Weapon detected. Drop the weapon and step back immediately."
  else if situation = "group_threat" then "Multiple aggressors detected. Disperse immediately or law enforcement will be summoned."
  else "Warning: Threat level elevated. You are being recorded. Authorities have been notified."

/-- `MythicVoice::red_messages`. -/
def red_messages (situation : String) : String :=
  if situation = "imminent_danger" then "IMMINENT DANGER DETECTED. EMERGENCY SERVICES CONTACTED. RETREAT IMMEDIATELY."
  else if situation = "weapon_drawn" then "WEAPON DRAWN. DROP WEAPON NOW. POLICE EN ROUTE. YOU ARE BEING RECORDED."
  else if situation = "physical_attack" then "PHYSICAL ATTACK IN PROGRESS. MEDICAL AND POLICE ASSISTANCE REQUESTED."
  else "HIGH THREAT CONFIRMED. ALL DETERRENCE SYSTEMS ACTIVE. SURRENDER IMMEDIATELY."

/-- `MythicVoice::green_messages`. -/
def green_messages : String :=
  "Guardian protocols active. Area under protection."

/-- `MythicVoice::omega_messages`. -/
def omega_messages : String :=
  "⚠️ OMEGA PROTOCOL ACTIVATED ⚠️ DARK PHOENIX RISING ⚠️ MAXIMUM PROTECTION AUTHORIZED ⚠️ SURRENDER OR FACE CONSEQUENCES ⚠️"

/-- `MythicVoice::get_message`. -/
def get_message (threat_level : ThreatLevel) (situation : String) : String :=
  match threat_level with
  | .Green => green_messages
  | .Yellow => yellow_messages situation
  | .Orange => orange_messages situation
  | .Red => red_messages situation
  | .Omega => omega_messages

/-- `DeterrenceSuite` (hardware controllers are external collaborators and
carry no state). -/
structure DeterrenceSuite where
  config : DeterrenceConfig
  state : DeterrenceState
deriving DecidableEq

/-- `DeterrenceSuite::deactivate_all`. -/
def DeterrenceSuite.deactivate_all (d : DeterrenceSuite) : DeterrenceSuite :=
  { d with state := { d.state with
      siren_active := false
      siren_volume := 0
      strobe_active := false
      strobe_pattern := .Off
      voice_active := false
      current_message := none } }

/-- `DeterrenceSuite::activate_low_deterrence` (Yellow). -/
def DeterrenceSuite.activate_low_deterrence (situation : String)
    (d : DeterrenceSuite) : DeterrenceSuite :=
  let message := get_message .Yellow situation
  { d with state := { d.state with
      strobe_active := true
      strobe_pattern := .Pulse
      voice_active := true
      current_message := some message } }

/-- `DeterrenceSuite::activate_medium_deterrence` (Orange). -/
def DeterrenceSuite.activate_medium_deterrence (situation : String)
    (d : DeterrenceSuite) : DeterrenceSuite :=
  let siren_volume := d.config.max_siren_volume / 3
  let message := get_message .Orange situation
  { d with state := { d.state with
      strobe_active := true
      strobe_pattern := .Warning
      siren_active := true
      siren_volume := siren_volume
      current_message := some message } }

/-- `DeterrenceSuite::activate_high_deterrence` (Red). -/
def DeterrenceSuite.activate_high_deterrence (situation : String)
    (d : DeterrenceSuite) : DeterrenceSuite :=
  let siren_volume := d.config.max_siren_volume * 2 / 3
  let message := get_message .Red situation
  { d with state := { d.state with
      strobe_active := true
      strobe_pattern := .Emergency
      siren_active := true
      siren_volume := siren_volume
      current_message := some message } }

/-- `DeterrenceSuite::activate_omega_protocol` (the ceremonial follow-up
announcement is an external voice command and changes no state). -/
def DeterrenceSuite.activate_omega_protocol (d : DeterrenceSuite) : DeterrenceSuite :=
  let message := get_message .Omega "omega"
  { d with state := { d.state with
      strobe_active := true
      strobe_pattern := .Phoenix
      siren_active := true
      siren_volume := d.config.max_siren_volume
      current_message := some message } }

/-- `DeterrenceSuite::activate`: stamp `last_activation`, bump
`activation_count`, then dispatch the level-specific profile. -/
def DeterrenceSuite.activate (now : Nat) (threat_level : ThreatLevel)
    (situation : String) (d : DeterrenceSuite) : DeterrenceSuite :=
  let d := { d with state := { d.state with
      last_activation := some now
      activation_count := d.state.activation_count + 1 } }
  match threat_level with
  | .Green => d.deactivate_all
  | .Yellow => d.activate_low_deterrence situation
  | .Orange => d.activate_medium_deterrence situation
  | .Red => d.activate_high_deterrence situation
  | .Omega => d.activate_omega_protocol

end Deterrence

namespace FireSuppression

/-- `FireSuppressionConfig` from `fire-suppression/src/lib.rs`. -/
structure FireSuppressionConfig where
  auto_activation_temp : ℚ
  smoke_sensitivity : ℚ
  max_discharge_duration : Nat
  cooldown_period : Nat
  allow_manual_override : Bool
  min_pressure : ℚ
deriving DecidableEq

/-- `FireSuppressionConfig::default()`. -/
def FireSuppressionConfig.default : FireSuppressionConfig :=
  { auto_activation_temp := 60
    smoke_sensitivity := 7/10
    max_discharge_duration := 10
    cooldown_period := 30
    allow_manual_override := true
    min_pressure := 100 }

/-- `NozzlePosition`. -/
inductive NozzlePosition where
  | Retracted
  | Deployed
  | Targeting
  | Emergency
deriving DecidableEq

/-- `SystemHealth` of the fire-suppression crate. -/
inductive SystemHealth where
  | Optimal
  | Degraded
  | Critical
  | Offline
deriving DecidableEq

/-- `FireSuppressionState`. -/
structure FireSuppressionState where
  system_armed : Bool
  extinguisher_pressure : ℚ
  extinguisher_capacity : ℚ
  nozzle_position : NozzlePosition
  current_temperature : ℚ
  smoke_level : ℚ
  last_activation : Option Nat
  total_activations : Nat
  system_health : SystemHealth
  discharge_active : Bool
  manual_override_active : Bool
deriving DecidableEq

/-- `FireSuppressionState::default()`. -/
def FireSuppressionState.default : FireSuppressionState :=
  { system_armed := true
    extinguisher_pressure := 150
    extinguisher_capacity := 100
    nozzle_position := .Retracted
    current_temperature := 20
    smoke_level := 0
    last_activation := none
    total_activations := 0
    system_health := .Optimal
    discharge_active := false
    manual_override_active := false }

/-- `FireEventType`. -/
inductive FireEventType where
  | TemperatureSpike
  | SmokeDetected
  | FlameDetected
  | FireSuppressed
  | SystemActivated
  | ManualOverride
  | EmergencyShutdown
deriving DecidableEq

/-- `FireSeverity`. -/
inductive FireSeverity where
  | Low
  | Medium
  | High
  | Critical
deriving DecidableEq

/-- `FireEvent`. -/
structure FireEvent where
  id : Nat
  timestamp : Nat
  event_type : FireEventType
  temperature : ℚ
  smoke_level : ℚ
  location_estimate : Option (ℚ × ℚ)
  severity : FireSeverity
  response_actions : List String
deriving DecidableEq

/-- `FireSuppressionSystem`. The hardware controllers are external; the
extra `valve_open` field models the physical extinguisher valve the
`ExtinguisherValve` handle drives (`open()` / `close()`), so that the
spawned auto-stop task — which captures only a clone of the valve handle —
can be given its exact effect. -/
structure FireSuppressionSystem where
  config : FireSuppressionConfig
  state : FireSuppressionState
  event_history : List FireEvent
  valve_open : Bool
deriving DecidableEq

/-- `FireSuppressionSystem::assess_fire_risk`: pure banding of
`temp_factor * 0.6 + smoke_factor * 0.4`. Note the code applies no
`max(0, ·)` clamp to `temp_factor`. -/
def FireSuppressionSystem.assess_fire_risk (sys : FireSuppressionSystem) : FireSeverity :=
  let temp_factor : ℚ :=
    if sys.config.auto_activation_temp < sys.state.current_temperature then
      (sys.state.current_temperature - 20.0) / 50.0
    else 0.0
  let smoke_factor := sys.state.smoke_level
  let risk_score := temp_factor * 0.6 + smoke_factor * 0.4
  if 0.8 ≤ risk_score then .Critical
  else if 0.6 ≤ risk_score then .High
  else if 0.3 ≤ risk_score then .Medium
  else .Low

/-- The raw risk score of `assess_fire_risk` as a function of the three
inputs it depends on. -/
def fire_risk_score (temp smoke threshold : ℚ) : ℚ :=
  (if threshold < temp then (temp - 20.0) / 50.0 else 0.0) * 0.6 + smoke * 0.4

/-- The severity banding of `assess_fire_risk`. -/
def fire_severity_of_risk (risk_score : ℚ) : FireSeverity :=
  if 0.8 ≤ risk_score then .Critical
  else if 0.6 ≤ risk_score then .High
  else if 0.3 ≤ risk_score then .Medium
  else .Low

/-- Fire risk following the spec's words: `temp_factor = max(0,
(current_temp - 20) / 50)` when `current_temp` exceeds the configured
auto-activation threshold, else 0; `risk = 0.6*temp_factor +
0.4*smoke_factor`; banded risk≥0.8 Critical, ≥0.6 High, ≥0.3 Medium,
else Low. -/
def spec_fire_risk (temp smoke threshold : ℚ) : FireSeverity :=
  let temp_factor : ℚ := if threshold < temp then max 0 ((temp - 20) / 50) else 0
  let risk := 0.6 * temp_factor + 0.4 * smoke
  if 0.8 ≤ risk then .Critical
  else if 0.6 ≤ risk then .High
  else if 0.3 ≤ risk then .Medium
  else .Low

/-- `FireSuppressionSystem::is_system_ready`. -/
def FireSuppressionSystem.is_system_ready (sys : FireSuppressionSystem) : Bool :=
  sys.state.system_armed &&
  decide (sys.config.min_pressure ≤ sys.state.extinguisher_pressure) &&
  decide ((5 : ℚ) < sys.state.extinguisher_capacity) &&
  decide (sys.state.system_health ≠ .Offline)

/-- `FireSuppressionSystem::update_system_health`. -/
def FireSuppressionSystem.update_system_health (sys : FireSuppressionSystem) : FireSuppressionSystem :=
  if sys.state.extinguisher_pressure < sys.config.min_pressure then
    { sys with state := { sys.state with system_health := .Critical } }
  else if sys.state.extinguisher_capacity < 20.0 then
    { sys with state := { sys.state with system_health := .Degraded } }
  else
    { sys with state := { sys.state with system_health := .Optimal } }

/-- `FireSuppressionSystem::log_fire_event`: push the event, then trim the
10 oldest events once the history exceeds 100 entries. -/
def FireSuppressionSystem.log_fire_event (uuid now : Nat)
    (event_type : FireEventType) (description : String)
    (sys : FireSuppressionSystem) : FireSuppressionSystem :=
  let event : FireEvent :=
    { id := uuid
      timestamp := now
      event_type := event_type
      temperature := sys.state.current_temperature
      smoke_level := sys.state.smoke_level
      location_estimate := none
      severity := sys.assess_fire_risk
      response_actions := [description] }
  let history := sys.event_history ++ [event]
  { sys with event_history := if 100 < history.length then history.drop 10 else history }

/-- The cooldown test of `activate_suppression`:
`Utc::now().signed_duration_since(last).num_seconds() < cooldown_period`. -/
def in_cooldown (now : Nat) (cfg : FireSuppressionConfig)
    (st : FireSuppressionState) : Bool :=
  match st.last_activation with
  | some last => decide ((now : Int) - (last : Int) < (cfg.cooldown_period : Int))
  | none => false

/-- `FireSuppressionSystem::activate_suppression`. Gate order as in the
code: (a) the cooldown gate silently skips (returns `Ok` with nothing
mutated) unless `emergency` or the manual override is set; (b) the
readiness gate fails with the `"System not ready"` error, nothing
mutated. On success: position the nozzle, open the valve, set
`discharge_active`, stamp `last_activation`, bump `total_activations`
and log a `SystemActivated` event. -/
def FireSuppressionSystem.activate_suppression (now uuid : Nat) (emergency : Bool)
    (sys : FireSuppressionSystem) : FireSuppressionSystem × Except String Unit :=
  if !emergency && !sys.state.manual_override_active &&
      in_cooldown now sys.config sys.state then
    (sys, .ok ())
  else if !sys.is_system_ready then
    (sys, .error "System not ready")
  else
    let activation_type := if emergency then "EMERGENCY" else "STANDARD"
    let st := { sys.state with
      nozzle_position := if emergency then NozzlePosition.Emergency else NozzlePosition.Targeting
      discharge_active := true
      last_activation := some now
      total_activations := sys.state.total_activations + 1 }
    let sys := { sys with state := st, valve_open := true }
    (sys.log_fire_event uuid now .SystemActivated
        (activation_type ++ " fire suppression activated"), .ok ())

/-- The body of the auto-stop task spawned by `activate_suppression`
after `max_discharge_duration`: it captures only a clone of the
extinguisher-valve handle and calls `valve.close()` — it touches no field
of `FireSuppressionState`. -/
def FireSuppressionSystem.auto_stop_task (sys : FireSuppressionSystem) : FireSuppressionSystem :=
  { sys with valve_open := false }

/-- `FireSuppressionSystem::manual_activate`: raise the override flag,
attempt activation (propagating its error with `?` — so the
`ManualOverride` event is logged only on success). -/
def FireSuppressionSystem.manual_activate (now uuid1 uuid2 : Nat)
    (sys : FireSuppressionSystem) : FireSuppressionSystem × Except String Unit :=
  let sys := { sys with state := { sys.state with manual_override_active := true } }
  match sys.activate_suppression now uuid1 false with
  | (sys2, .error e) => (sys2, .error e)
  | (sys2, .ok ()) =>
      (sys2.log_fire_event uuid2 now .ManualOverride
        "Manual fire suppression override activated", .ok ())

/-- `FireSuppressionSystem::stop_discharge`: when a discharge is active,
close the valve, clear `discharge_active` and the override flag, retract
the nozzle and log `FireSuppressed`; otherwise do nothing. -/
def FireSuppressionSystem.stop_discharge (now uuid : Nat)
    (sys : FireSuppressionSystem) : FireSuppressionSystem × Except String Unit :=
  if sys.state.discharge_active then
    let sys := { sys with
      valve_open := false
      state := { sys.state with
        discharge_active := false
        manual_override_active := false
        nozzle_position := .Retracted } }
    (sys.log_fire_event uuid now .FireSuppressed
        "Fire suppression discharge stopped", .ok ())
  else (sys, .ok ())

/-- `FireSuppressionSystem::prepare_for_suppression` (Medium risk): deploy
the nozzle when retracted and log a preparation event. -/
def FireSuppressionSystem.prepare_for_suppression (now uuid : Nat)
    (sys : FireSuppressionSystem) : FireSuppressionSystem :=
  if sys.state.nozzle_position = .Retracted then
    let sys := { sys with state := { sys.state with nozzle_position := .Deployed } }
    sys.log_fire_event uuid now .SystemActivated
      "Fire suppression system prepared for activation"
  else sys

end FireSuppression

open DarkPhoenixCore Deterrence ThreatDetection FireSuppression

/-! ## Concrete states used by the witness theorems -/

/-- A nominal drone state (as built by `DroneState::new`, with concrete
time 0 and id 0). -/
def nominalDrone : DroneState :=
  { id := 0
    name := "Phoenix-1"
    threat_level := .Green
    position := { latitude := 0, longitude := 0, altitude := 0, timestamp := 0 }
    target_vitals := none
    system_health :=
      { battery_level := 100
        flight_time_remaining := 3600
        shield_integrity := 100
        fire_suppression_ready := true
        medical_supplies := 100
        communication_status := true
        gps_lock := true
        timestamp := 0 }
    active_modules := []
    mission_log := []
    last_update := 0 }

/-- A drone state already at Yellow. -/
def yellowDrone : DroneState :=
  { nominalDrone with threat_level := .Yellow }

/-- A drone state with a weak battery (10%). -/
def weakBatteryDrone : DroneState :=
  { nominalDrone with
    system_health := { nominalDrone.system_health with battery_level := 10 } }

/-- A fire-suppression system in its default configuration and state. -/
def defaultFireSystem : FireSuppressionSystem :=
  { config := FireSuppressionConfig.default
    state := FireSuppressionState.default
    event_history := []
    valve_open := false }

/-- The default system with extinguisher pressure 50 PSI (below the
configured 100 PSI minimum). -/
def lowPressureFireSystem : FireSuppressionSystem :=
  { defaultFireSystem with
    state := { FireSuppressionState.default with extinguisher_pressure := 50 } }

/-! ## C6 — `is_critical` -/

/-- C6: for every `DroneState`, `is_critical()` returns true iff the
threat level is at least Red, or battery is below 20, or communications
are down, or shield integrity is below 50. -/
theorem is_critical_iff (s : DroneState) :
    s.is_critical = true ↔
      (ThreatLevel.Red.toNat ≤ s.threat_level.toNat ∨
        s.system_health.battery_level < 20 ∨
        s.system_health.communication_status = false ∨
        s.system_health.shield_integrity < 50) := by
  unfold DroneState.is_critical
  simp [Bool.or_eq_true, Bool.not_eq_true']
  tauto

/-- C6 witness: the criterion evaluated on a concrete low-battery state. -/
theorem is_critical_iff_witness : weakBatteryDrone.is_critical = true :=
  (is_critical_iff weakBatteryDrone).mpr (Or.inr (Or.inl (by decide)))

/-! ## C7 — `escalate_threat` no-op below the current level -/

/-- C7: `escalate_threat(L, reason)` with `L` at or below the current
level returns the state completely unchanged — threat level, mission log,
`last_update` and every other field. -/
theorem escalate_threat_noop (uuid now : Nat) (l : ThreatLevel) (r : String)
    (s : DroneState) (h : l.toNat ≤ s.threat_level.toNat) :
    s.escalate_threat uuid now l r = s := by
  unfold DroneState.escalate_threat
  rw [if_neg]
  omega

/-- C7 witness: a Green escalation request against a Yellow state is the
identity. -/
theorem escalate_threat_noop_witness :
    ThreatLevel.Green.toNat ≤ yellowDrone.threat_level.toNat ∧
      yellowDrone.escalate_threat 5 6 .Green "calm" = yellowDrone :=
  ⟨by decide, escalate_threat_noop 5 6 .Green "calm" yellowDrone (by decide)⟩

/-! ## C8 — deterrence at Green fully deactivates -/

/-- C8: from every prior `DeterrenceState`, `activate(Green, _)` leaves
all deterrence outputs off: siren inactive at volume 0, strobe off,
voice inactive with no current message. -/
theorem deterrence_activate_green (d : DeterrenceSuite) (now : Nat)
    (situation : String) :
    (d.activate now .Green situation).state.siren_active = false ∧
    (d.activate now .Green situation).state.siren_volume = 0 ∧
    (d.activate now .Green situation).state.strobe_active = false ∧
    (d.activate now .Green situation).state.strobe_pattern = .Off ∧
    (d.activate now .Green situation).state.voice_active = false ∧
    (d.activate now .Green situation).state.current_message = none := by
  simp [DeterrenceSuite.activate, DeterrenceSuite.deactivate_all]

/-! ## C1 — escalation is monotone, computes the max, and logs -/

theorem escalate_threat_level_eq_maxl (uuid now : Nat) (l : ThreatLevel)
    (r : String) (s : DroneState) :
    (s.escalate_threat uuid now l r).threat_level = s.threat_level.maxl l := by
  unfold DroneState.escalate_threat ThreatLevel.maxl
  by_cases h : s.threat_level.toNat < l.toNat
  · rw [if_pos h, if_pos h]
    rfl
  · rw [if_neg h, if_neg h]

theorem toNat_le_maxl (a b : ThreatLevel) : a.toNat ≤ (a.maxl b).toNat := by
  unfold ThreatLevel.maxl
  split <;> omega

theorem escalate_seq_level (calls : List EscCall) : ∀ s : DroneState,
    (s.escalate_seq calls).threat_level
      = calls.foldl (fun m c => m.maxl c.level) s.threat_level := by
  induction calls with
  | nil => intro s; rfl
  | cons c cs ih =>
      intro s
      have h1 : s.escalate_seq (c :: cs)
          = (s.escalate_threat c.uuid c.now c.level c.reason).escalate_seq cs := rfl
      rw [h1, ih, escalate_threat_level_eq_maxl]
      rfl

theorem escalate_seq_mono (calls : List EscCall) : ∀ s : DroneState,
    s.threat_level.toNat ≤ (s.escalate_seq calls).threat_level.toNat := by
  induction calls with
  | nil => intro s; exact Nat.le_refl _
  | cons c cs ih =>
      intro s
      have h1 : s.escalate_seq (c :: cs)
          = (s.escalate_threat c.uuid c.now c.level c.reason).escalate_seq cs := rfl
      rw [h1]
      refine Nat.le_trans ?_ (ih _)
      rw [escalate_threat_level_eq_maxl]
      exact toNat_le_maxl _ _

/-- C1: over every sequence of `escalate_threat` calls the threat level is
non-decreasing (per call and over any extension of the sequence) and ends
at the `maxl`-fold of the initial level with all levels passed in; every
call that strictly raises the level appends exactly one `ThreatDetected`
event whose description embeds the new level's name and the reason and
whose response-actions list carries the level's canonical description
string. -/
theorem escalate_threat_spec :
    (∀ (uuid now : Nat) (l : ThreatLevel) (r : String) (s : DroneState),
        s.threat_level.toNat ≤ (s.escalate_threat uuid now l r).threat_level.toNat)
  ∧ (∀ (s : DroneState) (pre suf : List EscCall),
        (s.escalate_seq pre).threat_level.toNat
          ≤ (s.escalate_seq (pre ++ suf)).threat_level.toNat)
  ∧ (∀ (s : DroneState) (calls : List EscCall),
        (s.escalate_seq calls).threat_level
          = calls.foldl (fun m c => m.maxl c.level) s.threat_level)
  ∧ (∀ (uuid now : Nat) (l : ThreatLevel) (r : String) (s : DroneState),
        s.threat_level.toNat < l.toNat →
        ∃ ev : MissionEvent,
          (s.escalate_threat uuid now l r).mission_log = s.mission_log ++ [ev] ∧
          ev.event_type = .ThreatDetected ∧
          ev.description = "Threat level escalated to " ++ l.as_str ++ ": " ++ r ∧
          l.as_str.data <:+: ev.description.data ∧
          r.data <:+: ev.description.data ∧
          ev.response_actions = ["Threat assessment: " ++ l.description] ∧
          ∃ a ∈ ev.response_actions, l.description.data <:+: a.data) := by
  refine ⟨?_, ?_, ?_, ?_⟩
  · intro uuid now l r s
    rw [escalate_threat_level_eq_maxl]
    exact toNat_le_maxl _ _
  · intro s pre suf
    simp only [DroneState.escalate_seq, List.foldl_append]
    exact escalate_seq_mono suf _
  · intro s calls
    exact escalate_seq_level calls s
  · intro uuid now l r s h
    refine ⟨{ id := uuid
              timestamp := now
              event_type := .ThreatDetected
              description := "Threat level escalated to " ++ l.as_str ++ ": " ++ r
              threat_level := l
              position := s.position
              response_actions := ["Threat assessment: " ++ l.description] },
            ?_, rfl, rfl, ?_, ?_, rfl, ?_⟩
    · unfold DroneState.escalate_threat
      rw [if_pos h]
      rfl
    · exact ⟨"Threat level escalated to ".data, (": " ++ r).data,
        by simp [String.data_append, List.append_assoc]⟩
    · exact ⟨("Threat level escalated to " ++ l.as_str ++ ": ").data, [],
        by simp [String.data_append, List.append_assoc]⟩
    · exact ⟨_, List.mem_singleton_self _,
        ⟨"Threat assessment: ".data, [], by simp [String.data_append]⟩⟩

/-- C1 witness: one raising call against the nominal Green state. -/
theorem escalate_threat_spec_witness :
    nominalDrone.threat_level.toNat < ThreatLevel.Orange.toNat ∧
      (∃ ev : MissionEvent,
        (nominalDrone.escalate_threat 1 2 .Orange "intruder").mission_log
            = nominalDrone.mission_log ++ [ev] ∧
        ev.event_type = .ThreatDetected ∧
        ev.description = "Threat level escalated to " ++ ThreatLevel.Orange.as_str
            ++ ": " ++ "intruder" ∧
        ThreatLevel.Orange.as_str.data <:+: ev.description.data ∧
        "intruder".data <:+: ev.description.data ∧
        ev.response_actions = ["Threat assessment: " ++ ThreatLevel.Orange.description] ∧
        ∃ a ∈ ev.response_actions, ThreatLevel.Orange.description.data <:+: a.data) :=
  ⟨by decide, escalate_threat_spec.2.2.2 1 2 .Orange "intruder" nominalDrone (by decide)⟩

/-! ## C2 — fire-risk banding -/

/-- The default system reconfigured with a 0 °C activation threshold and a
10 °C / 0.8-smoke reading: the configuration range on which the code's
unclamped `temp_factor` differs from the spec's `max(0, ·)` formula. -/
def coldThresholdFireSystem : FireSuppressionSystem :=
  { defaultFireSystem with
    config := { FireSuppressionConfig.default with auto_activation_temp := 0 }
    state := { FireSuppressionState.default with
      current_temperature := 10
      smoke_level := 8/10 } }

/-- C2 counterexample: with threshold 0 °C, temperature 10 °C and smoke
0.8, the spec's formula (`temp_factor = max(0,(temp-20)/50)`) yields
Medium while the code — whose `temp_factor` is the unclamped, here
negative, `(temp-20)/50` — yields Low. -/
theorem assess_fire_risk_counterexample :
    coldThresholdFireSystem.config.auto_activation_temp = 0 ∧
    coldThresholdFireSystem.state.current_temperature = 10 ∧
    coldThresholdFireSystem.state.smoke_level = 8/10 ∧
    spec_fire_risk 10 (8/10) 0 = .Medium ∧
    coldThresholdFireSystem.assess_fire_risk = .Low ∧
    ¬ coldThresholdFireSystem.assess_fire_risk = spec_fire_risk 10 (8/10) 0 := by
  refine ⟨rfl, rfl, rfl, ?_, ?_, ?_⟩
  · norm_num [spec_fire_risk]
  · norm_num [FireSuppressionSystem.assess_fire_risk, coldThresholdFireSystem,
      defaultFireSystem, FireSuppressionConfig.default, FireSuppressionState.default]
  · norm_num [spec_fire_risk, FireSuppressionSystem.assess_fire_risk,
      coldThresholdFireSystem, defaultFireSystem, FireSuppressionConfig.default,
      FireSuppressionState.default]
    decide

/-- C2 (amended): fire-risk severity is a pure function of (current
temperature, smoke level, configured threshold); `temp_factor` is the
unclamped `(temp - 20)/50` when the temperature exceeds the threshold
(negative when `temp < 20`) and 0 otherwise; `risk = 0.6*temp_factor +
0.4*smoke`, banded ≥0.8 Critical / ≥0.6 High / ≥0.3 Medium / else Low;
in particular temp=70, smoke=0.9, threshold=60 gives risk 0.96 and
severity Critical. -/
theorem assess_fire_risk_pure_bands :
    (∀ sys sys2 : FireSuppressionSystem,
        sys.state.current_temperature = sys2.state.current_temperature →
        sys.state.smoke_level = sys2.state.smoke_level →
        sys.config.auto_activation_temp = sys2.config.auto_activation_temp →
        sys.assess_fire_risk = sys2.assess_fire_risk)
  ∧ (∀ sys : FireSuppressionSystem,
        sys.assess_fire_risk = fire_severity_of_risk
          (fire_risk_score sys.state.current_temperature sys.state.smoke_level
            sys.config.auto_activation_temp))
  ∧ fire_risk_score 70 (9/10) 60 = 96/100
  ∧ fire_severity_of_risk (96/100) = .Critical := by
  refine ⟨?_, fun sys => rfl, by norm_num [fire_risk_score],
    by norm_num [fire_severity_of_risk]⟩
  intro sys sys2 ht hs hth
  unfold FireSuppressionSystem.assess_fire_risk
  rw [ht, hs, hth]

/-- C2 witness: purity applied to two concrete systems that differ only in
extinguisher pressure. -/
theorem assess_fire_risk_pure_bands_witness :
    defaultFireSystem.state.current_temperature
        = lowPressureFireSystem.state.current_temperature ∧
    defaultFireSystem.state.smoke_level = lowPressureFireSystem.state.smoke_level ∧
    defaultFireSystem.config.auto_activation_temp
        = lowPressureFireSystem.config.auto_activation_temp ∧
    defaultFireSystem.assess_fire_risk = lowPressureFireSystem.assess_fire_risk :=
  ⟨rfl, rfl, rfl,
    assess_fire_risk_pure_bands.1 defaultFireSystem lowPressureFireSystem rfl rfl rfl⟩

/-! ## C9 — aggregate threat risk score -/

/-- C9: `calculate_risk_score` equals the spec's mean-of-contributions
over the most recent 10 assessments (whose count is `min 10 |history|`,
and 0 on an empty history); the severity multipliers all lie in
[1.1, 2.0] with weapon detection the maximum at 2.0. -/
theorem calculate_risk_score_spec :
    (∀ e : UltraSeekerEngine,
        e.calculate_risk_score = spec_risk_score e.threat_history)
  ∧ (∀ e : UltraSeekerEngine,
        (e.threat_history.reverse.take 10).length = min 10 e.threat_history.length)
  ∧ (∀ t : ThreatType,
        11/10 ≤ t.severity_multiplier ∧ t.severity_multiplier ≤ 2)
  ∧ ThreatType.WeaponDetected.severity_multiplier = 2
  ∧ (∀ t : ThreatType,
        t.severity_multiplier ≤ ThreatType.WeaponDetected.severity_multiplier) := by
  refine ⟨?_, ?_, ?_, by norm_num [ThreatType.severity_multiplier], ?_⟩
  · intro e
    by_cases h : e.threat_history = []
    · simp [UltraSeekerEngine.calculate_risk_score, spec_risk_score, h]
    · have hne : e.threat_history.isEmpty = false := by
        simpa [List.isEmpty_iff] using h
      have hlen : ¬ (e.threat_history.reverse.take 10).length = 0 := by
        simp only [List.length_take, List.length_reverse]
        rcases Nat.eq_zero_or_pos e.threat_history.length with h0 | h0
        · exact absurd (List.length_eq_zero.mp h0) h
        · omega
      simp [UltraSeekerEngine.calculate_risk_score, spec_risk_score, hne, hlen,
        spec_contribution, h]
      rfl
  · intro e
    simp [List.length_take, List.length_reverse]
  · intro t
    cases t <;> constructor <;> norm_num [ThreatType.severity_multiplier]
  · intro t
    cases t <;> norm_num [ThreatType.severity_multiplier]

/-! ## Shared lemmas about `activate_suppression` -/

theorem log_fire_event_state (uuid now : Nat) (et : FireEventType) (d : String)
    (sys : FireSuppressionSystem) :
    (sys.log_fire_event uuid now et d).state = sys.state := rfl

theorem activate_suppression_not_ready (now uuid : Nat) (emergency : Bool)
    (sys : FireSuppressionSystem)
    (hready : sys.is_system_ready = false)
    (hreach : emergency = true ∨ sys.state.manual_override_active = true ∨
      in_cooldown now sys.config sys.state = false) :
    sys.activate_suppression now uuid emergency
      = (sys, .error "System not ready") := by
  unfold FireSuppressionSystem.activate_suppression
  rcases hreach with h | h | h <;> simp [h, hready]

theorem activate_suppression_success (now uuid : Nat) (emergency : Bool)
    (sys : FireSuppressionSystem)
    (hgate : emergency = true ∨ sys.state.manual_override_active = true ∨
      in_cooldown now sys.config sys.state = false)
    (hready : sys.is_system_ready = true) :
    sys.activate_suppression now uuid emergency =
      (FireSuppressionSystem.log_fire_event uuid now .SystemActivated
        ((if emergency then "EMERGENCY" else "STANDARD") ++ " fire suppression activated")
        { sys with
          state := { sys.state with
            nozzle_position := if emergency then .Emergency else .Targeting
            discharge_active := true
            last_activation := some now
            total_activations := sys.state.total_activations + 1 }
          valve_open := true }, .ok ()) := by
  unfold FireSuppressionSystem.activate_suppression
  rcases hgate with h | h | h <;> simp [h, hready]

theorem activate_suppression_cooldown_noop (now uuid : Nat)
    (sys : FireSuppressionSystem)
    (hov : sys.state.manual_override_active = false)
    (hcd : in_cooldown now sys.config sys.state = true) :
    sys.activate_suppression now uuid false = (sys, .ok ()) := by
  unfold FireSuppressionSystem.activate_suppression
  simp [hov, hcd]

/-! ## C3 — readiness gate failure mutates nothing -/

/-- C3: whenever `activate_suppression` actually consults the readiness
gate (i.e. the call is not short-circuited by the silent cooldown skip,
which the code checks first) and the gate fails — system unarmed, pressure
below the configured minimum, capacity ≤ 5 % or health Offline, exactly
the conditions of `is_system_ready` — the call returns the distinct
`"System not ready"` failure and the whole `FireSuppressionSystem`,
`FireSuppressionState` fields included, is returned unchanged. -/
theorem activate_suppression_not_ready_frame (now uuid : Nat) (emergency : Bool)
    (sys : FireSuppressionSystem)
    (hready : sys.is_system_ready = false)
    (hreach : emergency = true ∨ sys.state.manual_override_active = true ∨
      in_cooldown now sys.config sys.state = false) :
    (sys.activate_suppression now uuid emergency).2 = .error "System not ready" ∧
    (sys.activate_suppression now uuid emergency).1 = sys ∧
    (sys.activate_suppression now uuid emergency).1.state.total_activations
      = sys.state.total_activations := by
  rw [activate_suppression_not_ready now uuid emergency sys hready hreach]
  exact ⟨rfl, rfl, rfl⟩

/-- C3 witness: pressure 50 PSI against the 100 PSI minimum — the call
fails, the state (and `total_activations` in particular) is unchanged. -/
theorem activate_suppression_not_ready_frame_witness :
    lowPressureFireSystem.is_system_ready = false ∧
    (lowPressureFireSystem.activate_suppression 0 0 false).2
        = .error "System not ready" ∧
    (lowPressureFireSystem.activate_suppression 0 0 false).1 = lowPressureFireSystem ∧
    (lowPressureFireSystem.activate_suppression 0 0 false).1.state.total_activations
        = lowPressureFireSystem.state.total_activations :=
  ⟨by decide,
    activate_suppression_not_ready_frame 0 0 false lowPressureFireSystem (by decide)
      (Or.inr (Or.inr (by decide)))⟩

/-! ## C4 — cooldown gate, and emergency bypassing it -/

/-- C4: a second non-emergency, non-override call strictly less than
`cooldown_period` after a first successful activation is a silent no-op —
it returns `Ok` with the system (hence `total_activations`) untouched, so
the two calls increment `total_activations` exactly once; an
emergency call ignores the cooldown gate and proceeds whenever the
readiness gate passes. -/
theorem activate_suppression_cooldown_spec :
    (∀ (t1 t2 u1 u2 : Nat) (sys : FireSuppressionSystem),
        sys.state.manual_override_active = false →
        in_cooldown t1 sys.config sys.state = false →
        sys.is_system_ready = true →
        (t2 : Int) - (t1 : Int) < (sys.config.cooldown_period : Int) →
        (sys.activate_suppression t1 u1 false).2 = .ok () ∧
        (sys.activate_suppression t1 u1 false).1.state.total_activations
            = sys.state.total_activations + 1 ∧
        ((sys.activate_suppression t1 u1 false).1.activate_suppression t2 u2 false)
            = ((sys.activate_suppression t1 u1 false).1, .ok ()))
  ∧ (∀ (now uuid : Nat) (sys : FireSuppressionSystem),
        sys.is_system_ready = true →
        (sys.activate_suppression now uuid true).2 = .ok () ∧
        (sys.activate_suppression now uuid true).1.state.total_activations
            = sys.state.total_activations + 1 ∧
        (sys.activate_suppression now uuid true).1.state.discharge_active = true) := by
  constructor
  · intro t1 t2 u1 u2 sys hov hcd hrd hlt
    have e1 := activate_suppression_success t1 u1 false sys (Or.inr (Or.inr hcd)) hrd
    rw [e1]
    refine ⟨rfl, rfl, ?_⟩
    apply activate_suppression_cooldown_noop
    · exact hov
    · exact decide_eq_true hlt
  · intro now uuid sys hrd
    have e := activate_suppression_success now uuid true sys (Or.inl rfl) hrd
    rw [e]
    exact ⟨rfl, rfl, rfl⟩

/-- C4 witness: the default-configured system activated at t=100 and again
at t=110 (within the 30 s cooldown); plus the emergency conjunct at the
default system. -/
theorem activate_suppression_cooldown_spec_witness :
    defaultFireSystem.state.manual_override_active = false ∧
    in_cooldown 100 defaultFireSystem.config defaultFireSystem.state = false ∧
    defaultFireSystem.is_system_ready = true ∧
    (110 : Int) - (100 : Int) < (defaultFireSystem.config.cooldown_period : Int) ∧
    ((defaultFireSystem.activate_suppression 100 7 false).2 = .ok () ∧
      (defaultFireSystem.activate_suppression 100 7 false).1.state.total_activations
          = defaultFireSystem.state.total_activations + 1 ∧
      ((defaultFireSystem.activate_suppression 100 7 false).1.activate_suppression 110 8 false)
          = ((defaultFireSystem.activate_suppression 100 7 false).1, .ok ())) ∧
    ((defaultFireSystem.activate_suppression 100 9 true).2 = .ok () ∧
      (defaultFireSystem.activate_suppression 100 9 true).1.state.total_activations
          = defaultFireSystem.state.total_activations + 1 ∧
      (defaultFireSystem.activate_suppression 100 9 true).1.state.discharge_active = true) :=
  ⟨rfl, rfl, by decide, by decide,
    activate_suppression_cooldown_spec.1 100 110 7 8 defaultFireSystem rfl rfl
      (by decide) (by decide),
    activate_suppression_cooldown_spec.2 100 9 defaultFireSystem (by decide)⟩

/-! ## C5 — the auto-stop timer and stop idempotence -/

theorem stop_discharge_noop (now uuid : Nat) (sys : FireSuppressionSystem)
    (h : sys.state.discharge_active = false) :
    sys.stop_discharge now uuid = (sys, .ok ()) := by
  unfold FireSuppressionSystem.stop_discharge
  simp [h]

theorem stop_discharge_clears (now uuid : Nat) (sys : FireSuppressionSystem) :
    ((sys.stop_discharge now uuid).1).state.discharge_active = false := by
  unfold FireSuppressionSystem.stop_discharge
  split
  · rfl
  · next h => simpa using h

/-- The default system after a successful standard activation at t=0. -/
def activatedFireSystem : FireSuppressionSystem :=
  (defaultFireSystem.activate_suppression 0 0 false).1

/-- C5 counterexample: after a successful activation the discharge flag is
set, and firing the scheduled auto-stop task — whose body only closes the
hardware valve it captured — leaves `discharge_active` true, contradicting
the claim that the timer makes `discharge_active` false. -/
theorem auto_stop_timer_counterexample :
    activatedFireSystem.state.discharge_active = true ∧
    (activatedFireSystem.auto_stop_task).state.discharge_active = true ∧
    ¬ (activatedFireSystem.auto_stop_task).state.discharge_active = false := by
  exact ⟨rfl, rfl, fun h => Bool.noConfusion h⟩

/-- C5 (amended): the scheduled auto-stop task force-closes the valve,
idempotently, but changes no field of `FireSuppressionState` (in
particular it never clears `discharge_active`); `discharge_active` is
cleared only by `stop_discharge`, which is idempotent — called on a
system with no active discharge (e.g. again after a stop, manual or not)
it returns `Ok` and changes nothing. -/
theorem auto_stop_task_and_stop_discharge_idempotent :
    (∀ sys : FireSuppressionSystem,
        (sys.auto_stop_task).valve_open = false ∧
        (sys.auto_stop_task).state = sys.state ∧
        (sys.auto_stop_task).auto_stop_task = sys.auto_stop_task)
  ∧ (∀ (now uuid : Nat) (sys : FireSuppressionSystem),
        sys.state.discharge_active = false →
        sys.stop_discharge now uuid = (sys, .ok ()))
  ∧ (∀ (n1 u1 n2 u2 : Nat) (sys : FireSuppressionSystem),
        ((sys.stop_discharge n1 u1).1).stop_discharge n2 u2
          = ((sys.stop_discharge n1 u1).1, .ok ()))
  ∧ (∀ (n1 u1 n2 u2 : Nat) (sys : FireSuppressionSystem),
        (((sys.stop_discharge n1 u1).1).auto_stop_task).stop_discharge n2 u2
          = (((sys.stop_discharge n1 u1).1).auto_stop_task, .ok ())) := by
  refine ⟨fun sys => ⟨rfl, rfl, rfl⟩, fun now uuid sys h => stop_discharge_noop now uuid sys h,
    fun n1 u1 n2 u2 sys => stop_discharge_noop n2 u2 _ (stop_discharge_clears n1 u1 sys),
    fun n1 u1 n2 u2 sys => stop_discharge_noop n2 u2 _ (stop_discharge_clears n1 u1 sys)⟩

/-- C5 witness: the no-discharge no-op applied to the default system. -/
theorem auto_stop_task_and_stop_discharge_idempotent_witness :
    defaultFireSystem.state.discharge_active = false ∧
    defaultFireSystem.stop_discharge 3 4 = (defaultFireSystem, .ok ()) :=
  ⟨rfl, auto_stop_task_and_stop_discharge_idempotent.2.1 3 4 defaultFireSystem rfl⟩

/-! ## C10 — manual override flag survives a failed activation -/

/-- C10: when the inner activation of `manual_activate` fails the
readiness gate, the raised `manual_override_active` flag is not rolled
back — the call returns the error with the flag set, no activation
counted and no `ManualOverride` event logged; a set override flag then
makes any subsequent non-emergency `activate_suppression` skip the
cooldown gate and proceed whenever the readiness gate passes. -/
theorem manual_activate_override_persists :
    (∀ (now u1 u2 : Nat) (sys : FireSuppressionSystem),
        sys.is_system_ready = false →
        (sys.manual_activate now u1 u2).1.state.manual_override_active = true ∧
        (sys.manual_activate now u1 u2).1.state.total_activations
            = sys.state.total_activations ∧
        (sys.manual_activate now u1 u2).1.event_history = sys.event_history ∧
        (sys.manual_activate now u1 u2).2 = .error "System not ready")
  ∧ (∀ (now uuid : Nat) (sys : FireSuppressionSystem),
        sys.state.manual_override_active = true →
        sys.is_system_ready = true →
        (sys.activate_suppression now uuid false).2 = .ok () ∧
        (sys.activate_suppression now uuid false).1.state.total_activations
            = sys.state.total_activations + 1) := by
  constructor
  · intro now u1 u2 sys h
    have e := activate_suppression_not_ready now u1 false
      { sys with state := { sys.state with manual_override_active := true } }
      h (Or.inr (Or.inl rfl))
    simp only [FireSuppressionSystem.manual_activate]
    rw [e]
    exact ⟨rfl, rfl, rfl, rfl⟩
  · intro now uuid sys hov hrd
    have e := activate_suppression_success now uuid false sys (Or.inr (Or.inl hov)) hrd
    rw [e]
    exact ⟨rfl, rfl⟩

/-- C10 witness: `manual_activate` against the low-pressure system fails
yet leaves the override flag raised. -/
theorem manual_activate_override_persists_witness :
    lowPressureFireSystem.is_system_ready = false ∧
    (lowPressureFireSystem.manual_activate 0 1 2).1.state.manual_override_active = true ∧
    (lowPressureFireSystem.manual_activate 0 1 2).1.event_history
        = lowPressureFireSystem.event_history ∧
    (lowPressureFireSystem.manual_activate 0 1 2).2 = .error "System not ready" :=
  ⟨by decide,
    (manual_activate_override_persists.1 0 1 2 lowPressureFireSystem (by decide)).1,
    (manual_activate_override_persists.1 0 1 2 lowPressureFireSystem (by decide)).2.2.1,
    (manual_activate_override_persists.1 0 1 2 lowPressureFireSystem (by decide)).2.2.2⟩
